import Mathlib

/-!
Verification development for the packAI property-maintenance pipeline.

The Python sources are shallowly embedded as total Lean functions:

* Python strings are `String`; the Python primitives used by the code
  (`str.lower`, `str.strip`, `str.replace(pat, "")`, `str.split(sep)`,
  the substring test `pat in s`, slicing `s[:n]`) are re-implemented on
  `List Char` by structural recursion so that every definition is
  executable and kernel-evaluable.
* The external text-completion service is an explicit oracle argument:
  each call site receives either `.error e` (the Python exception path)
  or `.ok response` (the raw response text, or for the extraction call
  the JSON object that `json.loads` produced).
* The case-file directory is a `Store : String → Option SavedCase`;
  `json.dump`/`json.load` round-tripping of JSON values is the identity
  on the serialized record.
* Wall-clock timestamps (`datetime.utcnow()`) are passed in as an
  opaque `now : String`.
-/

namespace PackAI

/-! ### Python string primitives (from the Python standard semantics) -/

/-- Python `str.lower` on the ASCII strings this system manipulates. -/
def pyLower (s : String) : String := ⟨s.data.map Char.toLower⟩

/-- Characters removed by Python `str.strip()`. -/
def pySpaceChar (c : Char) : Bool :=
  c = ' ' || c = '\t' || c = '\n' || c = '\r' || c = '\x0b' || c = '\x0c'

/-- `str.strip()` on a character list: drop whitespace from both ends. -/
def pyStripL (l : List Char) : List Char :=
  ((l.dropWhile pySpaceChar).reverse.dropWhile pySpaceChar).reverse

/-- Python `str.strip()`. -/
def pyStrip (s : String) : String := ⟨pyStripL s.data⟩

/-- Python substring test `pat in s` on character lists. -/
def containsL (s pat : List Char) : Bool :=
  match s with
  | [] => pat.isEmpty
  | c :: t => pat.isPrefixOf (c :: t) || containsL t pat

/-- Python substring test `pat in s`. -/
def pyContains (s pat : String) : Bool := containsL s.data pat.data

/-- Fuel-driven worker for `str.replace(pat, "")`: delete every
left-to-right non-overlapping occurrence of `pat`. -/
def replDelAux (pat : List Char) : Nat → List Char → List Char
  | _, [] => []
  | 0, s => s
  | fuel + 1, c :: t =>
    if pat ≠ [] ∧ pat.isPrefixOf (c :: t) then
      replDelAux pat fuel ((c :: t).drop pat.length)
    else c :: replDelAux pat fuel t

/-- Python `s.replace(pat, "")` (the code only ever replaces with `""`). -/
def pyReplaceDel (s pat : String) : String :=
  ⟨replDelAux pat.data s.data.length s.data⟩

/-- Fuel-driven worker for `str.split(sep)` with a non-empty separator. -/
def splitAux (sep : List Char) : Nat → List Char → List Char → List (List Char)
  | 0, s, acc => [acc.reverse ++ s]
  | fuel + 1, s, acc =>
    match s with
    | [] => [acc.reverse]
    | c :: t =>
      if sep.isPrefixOf (c :: t) then
        acc.reverse :: splitAux sep fuel ((c :: t).drop sep.length) []
      else splitAux sep fuel t (c :: acc)

/-- Python `s.split(sep)`; empty pieces are kept, as in Python. -/
def pySplit (s sep : String) : List String :=
  if sep.data = [] then [s]
  else (splitAux sep.data s.data.length s.data []).map (fun l => ⟨l⟩)

/-- Python slicing `s[:n]`. -/
def pyTake (n : Nat) (s : String) : String := ⟨s.data.take n⟩

/-! ### Metadata extractor — `src/event_creator.py`, `EventCreator.extract_metadata` -/

/-- The dictionary returned by `extract_metadata`: after the
`setdefault` calls all four keys are always present. -/
structure Metadata where
  urgency : String
  location : String
  issue_type : String
  summary : String
deriving Repr, DecidableEq

/-- The JSON object parsed out of the text-completion response by
`json.loads` (fields read with `dict`-style access, hence optional).
Code-fence stripping, network failures and malformed JSON are all
abstracted into the `Except` wrapping at the call site: any exception
inside the `try` block is the `.error` case. -/
structure MetaResponse where
  urgency : Option String := none
  location : Option String := none
  issue_type : Option String := none
  summary : Option String := none
deriving Repr, DecidableEq

/-- `'From:' in content` (Python substring test), as used in
`extract_metadata`. -/
def hasFromHeader (content : String) : Bool := pyContains content ("From:")

/-- `[line for line in content.split('\n') if 'From:' in line]`. -/
def fromLines (content : String) : List String :=
  (pySplit content ("\n")).filter (fun line => pyContains line ("From:"))

/-- `from_line[0].replace('From:', '').strip()`. -/
def fromTextOf (line0 : String) : String := pyStrip (pyReplaceDel line0 ("From:"))

/-- The location computed by the exception branch of `extract_metadata`
(src/event_creator.py lines 122-140). -/
def errLocation (content : String) : String :=
  if hasFromHeader content then
    match (fromLines content).head? with
    | none => "unknown"
    | some line0 =>
      let from_text := fromTextOf line0
      if pyContains from_text ("<") then
        let name_part := pyStrip ((pySplit from_text ("<")).headD (""))
        if name_part ≠ "" then name_part
        else
          let email_part :=
            pyStrip ((pySplit ((pySplit from_text ("<")).getD 1 ("")) (">")).headD (""))
          if pyContains email_part ("@") then (pySplit email_part ("@")).headD ("")
          else email_part
      else
        if pyContains from_text ("@") then (pySplit from_text ("@")).headD ("")
        else from_text
  else "unknown"

/-- `metadata.get('location', '').lower() in ['unknown', '']`. -/
def locIsUnknownOrEmpty (loc : String) : Bool :=
  pyLower loc = "unknown" || pyLower loc = ""

/-- The location produced by the success branch of `extract_metadata`
(src/event_creator.py lines 80-116): the sender-derived improvement pass
followed by the final fallback pass.  `loc0` is `metadata['location']`
after the `setdefault`. -/
def successLocation (content : String) (loc0 : String) : String :=
  let loc1 :=
    if hasFromHeader content then
      match (fromLines content).head? with
      | none => loc0
      | some line0 =>
        let from_text := fromTextOf line0
        if pyContains from_text ("<") && pyContains from_text (">") then
          let name_part := pyStrip ((pySplit from_text ("<")).headD (""))
          if name_part ≠ "" then
            if locIsUnknownOrEmpty loc0 || pyContains loc0 ("@") then name_part else loc0
          else
            let email_part :=
              pyStrip ((pySplit ((pySplit from_text ("<")).getD 1 ("")) (">")).headD (""))
            if locIsUnknownOrEmpty loc0 then
              if pyContains email_part ("@") then (pySplit email_part ("@")).headD ("")
              else email_part
            else loc0
        else
          if pyContains from_text ("@") then
            if locIsUnknownOrEmpty loc0 then (pySplit from_text ("@")).headD ("") else loc0
          else
            if locIsUnknownOrEmpty loc0 then from_text else loc0
    else loc0
  if pyLower loc1 = "unknown" || pyContains loc1 ("@") then
    if hasFromHeader content then
      match (fromLines content).head? with
      | none => loc1
      | some line0 =>
        let from_text := fromTextOf line0
        if pyContains from_text ("<") && pyContains from_text (">") then
          let name_part := pyStrip ((pySplit from_text ("<")).headD (""))
          if name_part ≠ "" then name_part else loc1
        else loc1
    else loc1
  else loc1

/-- `EventCreator.extract_metadata` (src/event_creator.py lines 24-148).
`service` is the outcome of the surrounding `try`: `.ok` carries the
JSON object parsed from the completion response, `.error` is any raised
exception (network failure, malformed or unparsable response). -/
def extract_metadata (content : String) (service : Except String MetaResponse) :
    Metadata :=
  match service with
  | .error _ =>
    { urgency := "routine", location := errLocation content,
      issue_type := "general", summary := pyTake 100 content }
  | .ok resp =>
    let urgency0 := resp.urgency.getD ("routine")
    let location0 := resp.location.getD ("unknown")
    let issue_type0 := resp.issue_type.getD ("general")
    let summary0 := resp.summary.getD (pyTake 100 content)
    let urgency1 :=
      if pyLower urgency0 = "urgent" || pyLower urgency0 = "routine" then urgency0
      else "routine"
    { urgency := urgency1, location := successLocation content location0,
      issue_type := issue_type0, summary := summary0 }

/-! ### Case records — `src/case_file.py` -/

/-- A maintenance company row from the vendor roster spreadsheet
(`read_as_dicts`; missing columns read as `""`).  Only the keys the
agent consults are modelled: `name`/`company_name` and
`specialties`/`repair_types`/`services`. -/
structure Company where
  name : String := ""
  company_name : String := ""
  specialties : String := ""
  repair_types : String := ""
  services : String := ""
deriving Repr, DecidableEq

/-- The `event_data` dictionary built by `process_event_fast`
(src/property_agent.py lines 414-423); `repair_type` is added to the
dict during processing, hence `Option`. -/
structure EventData where
  event_id : String
  event_type : String
  urgency : String
  location : String
  summary : String
  source_type : String
  source_id : String
  description : String
  repair_type : Option String := none
deriving Repr, DecidableEq

/-- The `data` payload of a recorded action; one constructor per
`add_action` call site in `process_event_fast`. -/
inductive ActionData where
  | detected (event_type urgency location summary : String) (is_maintenance : Bool)
  | repairTypeFound (repair_type : String)
  | companySelected (company : Company)
  | companyNone
deriving Repr, DecidableEq

/-- One entry of `CaseFile.actions`: `{timestamp, action_type, data}`. -/
structure ActionRec where
  timestamp : String
  action_type : String
  data : ActionData
deriving Repr, DecidableEq

/-- One entry of `CaseFile.emails`: `{timestamp, recipient, content}`,
plus the `sent` key that `approve_email` may add later (absent = the
dict has no `sent` key). -/
structure EmailRec where
  timestamp : String
  recipient : String
  content : String
  sent : Option Bool := none
deriving Repr, DecidableEq

/-- The in-memory `CaseFile` object. -/
structure CaseFile where
  event_id : String
  event_data : EventData
  actions : List ActionRec
  emails : List EmailRec
  created_at : String
  status : String
deriving Repr, DecidableEq

/-- The JSON object written by `CaseFile.save` (`to_dict`).  `load`
reads `event_id` and `event_data` by direct indexing but the other four
keys through `dict.get` with a default, hence their `Option` type. -/
structure SavedCase where
  event_id : String
  event_data : EventData
  created_at : Option String
  status : Option String
  actions : Option (List ActionRec)
  emails : Option (List EmailRec)
deriving Repr, DecidableEq

/-- The case-file directory: one JSON file per `event_id`. -/
def Store : Type := String → Option SavedCase

namespace Store

/-- An empty case-file directory. -/
def empty : Store := fun _ => none

/-- Writing the file named `k.json` (overwrites, as `open(..., 'w')`). -/
def update (st : Store) (k : String) (v : SavedCase) : Store :=
  fun e => if e = k then some v else st e

end Store

namespace CaseFile

/-- `CaseFile.__init__` (src/case_file.py lines 11-26). -/
def init (event_id : String) (event_data : EventData) (now : String) : CaseFile :=
  { event_id := event_id, event_data := event_data, actions := [], emails := [],
    created_at := now, status := "open" }

/-- `CaseFile.add_action` (src/case_file.py lines 28-40). -/
def add_action (cf : CaseFile) (now action_type : String) (data : ActionData) :
    CaseFile :=
  { cf with actions := cf.actions ++
      [{ timestamp := now, action_type := action_type, data := data }] }

/-- `CaseFile.add_email` (src/case_file.py lines 42-54); the new dict
has no `sent` key. -/
def add_email (cf : CaseFile) (now recipient content : String) : CaseFile :=
  { cf with emails := cf.emails ++
      [{ timestamp := now, recipient := recipient, content := content, sent := none }] }

/-- `CaseFile.to_dict` (src/case_file.py lines 56-69). -/
def to_dict (cf : CaseFile) : SavedCase :=
  { event_id := cf.event_id, event_data := cf.event_data,
    created_at := some cf.created_at, status := some cf.status,
    actions := some cf.actions, emails := some cf.emails }

/-- `CaseFile.save` (src/case_file.py lines 71-78): serialize `to_dict`
into the file named by `event_id`. -/
def save (cf : CaseFile) (st : Store) : Store := st.update cf.event_id cf.to_dict

/-- Rebuilding a `CaseFile` from a stored dict, as the body of
`CaseFile.load` does (`data.get(..., default)` for the last four keys;
the constructor's fresh `created_at` is `now`). -/
def ofSaved (d : SavedCase) (now : String) : CaseFile :=
  { event_id := d.event_id, event_data := d.event_data,
    actions := d.actions.getD [], emails := d.emails.getD [],
    created_at := d.created_at.getD now, status := d.status.getD ("open") }

/-- `CaseFile.load` (src/case_file.py lines 80-104): `none` when the
file does not exist. -/
def load (st : Store) (event_id : String) (now : String) : Option CaseFile :=
  (st event_id).map (fun d => ofSaved d now)

end CaseFile

/-! ### Classification & routing — `src/property_agent.py` -/

/-- `config.PROPERTY_MANAGEMENT_AGENT_ID` (src/config.py). -/
def PROPERTY_MANAGEMENT_AGENT_ID : String := "property_manager_agent_001"

/-- The `maintenance_types` list of `is_maintenance_related`
(src/property_agent.py lines 47-56). -/
def maintenance_types : List String :=
  ["maintenance_request", "repair_request", "emergency_repair",
   "routine_maintenance", "maintenance_issue", "repair_needed",
   "maintenance", "repair"]

/-- `PropertyManagementAgent.is_maintenance_related`
(src/property_agent.py lines 38-57). -/
def is_maintenance_related (event_type : String) : Bool :=
  (maintenance_types.map pyLower).contains (pyLower event_type)

/-- The text-completion service, one field per distinct chat-completion
call site of `property_agent.py`; each returns the raw response text of
that call or carries the raised exception. -/
structure Oracle where
  repairFromSummary : String → String → Except String String
  repairFromDescription : String → Except String String
  selectCompany : List Company → String → String → Except String String
  email : String → EventData → Option Company → Except String String

/-- `PropertyManagementAgent.determine_repair_type_from_summary`
(src/property_agent.py lines 62-97): `strip().lower()`, then
`replace('"', '').replace('.', '').strip()`; on exception `"general"`. -/
def determine_repair_type_from_summary (o : Oracle) (summary location : String) :
    String :=
  match o.repairFromSummary summary location with
  | .error _ => "general"
  | .ok r => pyStrip (pyReplaceDel (pyReplaceDel (pyLower (pyStrip r)) ("\"")) ("."))

/-- The LLM branch of `determine_repair_type` (src/property_agent.py
lines 112-137): `strip().lower()` only; on exception `"other"`. -/
def determine_repair_type_llm (o : Oracle) (description : String) : String :=
  match o.repairFromDescription description with
  | .error _ => "other"
  | .ok r => pyLower (pyStrip r)

/-- `PropertyManagementAgent.determine_repair_type`
(src/property_agent.py lines 99-137).  `description` is
`event_data.get('description', event_data.get('details', ''))`; the
dicts built by this pipeline always carry `description`. -/
def determine_repair_type (o : Oracle) (ed : EventData) : String :=
  match ed.repair_type with
  | some rt => if rt ≠ "unknown" then rt else determine_repair_type_llm o ed.description
  | none => determine_repair_type_llm o ed.description

/-- `company.get('name', '') or company.get('company_name', '')`. -/
def companyNameOf (c : Company) : String :=
  if c.name ≠ "" then c.name else c.company_name

/-- `str(company.get('specialties', '') or company.get('repair_types', '')
or company.get('services', '')).lower()` (src/property_agent.py line 165). -/
def specialtiesOf (c : Company) : String :=
  pyLower (if c.specialties ≠ "" then c.specialties
           else if c.repair_types ≠ "" then c.repair_types
           else c.services)

/-- `PropertyManagementAgent._gpt_select_company`
(src/property_agent.py lines 181-229). -/
def gpt_select_company (o : Oracle) (companies : List Company)
    (repair_type : String) (ed : EventData) : Option Company :=
  match o.selectCompany companies repair_type ed.description with
  | .error _ => companies.head?
  | .ok resp =>
    let selected := pyStrip resp
    match companies.find? (fun c =>
        pyContains (pyLower (companyNameOf c)) (pyLower selected) ||
        pyContains (pyLower selected) (pyLower (companyNameOf c))) with
    | some c => some c
    | none => companies.head?

/-- `PropertyManagementAgent.select_maintenance_company`
(src/property_agent.py lines 139-179); `companies` is the roster read
by `get_maintenance_companies` (empty on a read error). -/
def select_maintenance_company (o : Oracle) (companies : List Company)
    (repair_type : String) (ed : EventData) : Option Company :=
  match companies with
  | [] => none
  | _ :: _ =>
    let matching := companies.filter (fun c =>
      pyContains (specialtiesOf c) (pyLower repair_type) || specialtiesOf c = "")
    match matching with
    | [] => gpt_select_company o companies repair_type ed
    | [c] => some c
    | _ :: _ :: _ => gpt_select_company o matching repair_type ed

/-- `PropertyManagementAgent.generate_email`
(src/property_agent.py lines 231-297): strip the response; on exception
return the `"Error generating email: ..."` string; unknown recipient
types return `""` without calling the service. -/
def generate_email (o : Oracle) (recipient_type : String) (ed : EventData)
    (company : Option Company) : String :=
  if recipient_type = "property_manager" || recipient_type = "maintenance_company"
      || recipient_type = "tenant" then
    match o.email recipient_type ed company with
    | .ok r => pyStrip r
    | .error e => "Error generating email: " ++ e
  else ""

/-- The `event_data` dict assembled at the top of `process_event_fast`
(src/property_agent.py lines 414-423): `description` is the summary. -/
def mkEventData (event_id event_type urgency location summary source_type
    source_id : String) : EventData :=
  { event_id := event_id, event_type := event_type, urgency := urgency,
    location := location, summary := summary, source_type := source_type,
    source_id := source_id, description := summary, repair_type := none }

/-- `PropertyManagementAgent.process_event_fast`
(src/property_agent.py lines 390-473).  Returns the created `CaseFile`
together with the store after `case_file.save()`.  The Python
`event_data['repair_type'] = repair_type` mutates the dict the case
file aliases, so the saved `event_data` carries the repair type. -/
def process_event_fast (o : Oracle) (roster : List Company) (st : Store)
    (now : String) (event_id event_type urgency location summary source_type
    source_id : String) : CaseFile × Store :=
  let ed := mkEventData event_id event_type urgency location summary source_type
    source_id
  let cf := CaseFile.init event_id ed now
  let cf := cf.add_action now ("detected_subscription")
    (.detected event_type urgency location summary true)
  let repair_type :=
    if summary ≠ "" ∧ 20 < summary.length then
      determine_repair_type_from_summary o summary location
    else determine_repair_type o ed
  let ed := { ed with repair_type := some repair_type }
  let cf := { cf with event_data := ed }
  let cf := cf.add_action now ("determined_repair_type") (.repairTypeFound repair_type)
  let company := select_maintenance_company o roster repair_type ed
  let cf := cf.add_action now ("selected_maintenance_company")
    (match company with
     | some c => .companySelected c
     | none => .companyNone)
  let pm_email := generate_email o ("property_manager") ed company
  let cf := cf.add_email now ("property_manager") pm_email
  let mc_email :=
    match company with
    | some c => generate_email o ("maintenance_company") ed (some c)
    | none => "No maintenance company selected."
  let cf := cf.add_email now ("maintenance_company") mc_email
  let tenant_email := generate_email o ("tenant") ed company
  let cf := cf.add_email now ("tenant") tenant_email
  (cf, cf.save st)

/-! ### Event ledger and the orchestration pass -/

/-- One data row of the events spreadsheet, under the fixed column
schema `event_id, timestamp, event_type, source_type, source_id,
urgency, location, summary, subscribed_agents, status` (the header row
is abstracted away; `read_as_dicts` yields these fields as strings,
`""` for blank cells). -/
structure Row where
  event_id : String := ""
  timestamp : String := ""
  event_type : String := ""
  source_type : String := ""
  source_id : String := ""
  urgency : String := ""
  location : String := ""
  summary : String := ""
  subscribed_agents : String := ""
  status : String := ""
deriving Repr, DecidableEq

/-- Writing the status cell of a row (`sheet.update_cell(i, 10, status)`). -/
def setRowStatus (s : String) (r : Row) : Row := { r with status := s }

/-- `PropertyManagementAgent._update_event_status`
(src/property_agent.py lines 364-388): linear scan for the first row
whose first column equals `event_id`, set its status cell, and return;
if no row matches, the loop falls through and nothing happens — no
error is raised or reported. -/
def update_event_status : List Row → String → String → List Row
  | [], _, _ => []
  | r :: rest, e, s =>
    if r.event_id = e then setRowStatus s r :: rest
    else r :: update_event_status rest e s

/-- The guard sequence of the loop body of
`check_and_process_subscribed_events` (src/property_agent.py lines
314-345), folded into one conjunction: non-empty `event_id`, no
existing case file, `status == 'new'`, `agent_id in subscribed_agents`
(Python substring test), and a maintenance-related event type. -/
def eligible (agent_id : String) (st : Store) (now : String) (r : Row) : Bool :=
  (r.event_id != "") &&
  !(CaseFile.load st r.event_id now).isSome &&
  (r.status == "new") &&
  pyContains r.subscribed_agents agent_id &&
  is_maintenance_related r.event_type

/-- The loop of `check_and_process_subscribed_events` over the snapshot
of ledger rows read at the start of the pass; the accumulator carries
the case-file store, the live spreadsheet, and the list of created
case files (`process_event_fast` always returns a case file, so the
`if case_file:` test always succeeds and each processed row is marked
`'processing'`). -/
def passAux (agent_id : String) (o : Oracle) (roster : List Company) (now : String) :
    List Row → Store × List Row × List CaseFile → Store × List Row × List CaseFile
  | [], acc => acc
  | r :: rest, (st, ledger, cases) =>
    if eligible agent_id st now r then
      let res := process_event_fast o roster st now r.event_id r.event_type
        r.urgency r.location r.summary r.source_type r.source_id
      passAux agent_id o roster now rest
        (res.2, update_event_status ledger r.event_id ("processing"), cases ++ [res.1])
    else passAux agent_id o roster now rest (st, ledger, cases)

/-- `PropertyManagementAgent.check_and_process_subscribed_events`
(src/property_agent.py lines 299-362): one orchestration pass over the
ledger.  Returns the final case-file store, the final ledger, and the
list of case files created (in order). -/
def check_and_process_subscribed_events (agent_id : String) (o : Oracle)
    (roster : List Company) (now : String) (ledger : List Row) (st : Store) :
    Store × List Row × List CaseFile :=
  passAux agent_id o roster now ledger (st, ledger, [])

/-- `n` successive orchestration passes. -/
def iteratePasses (agent_id : String) (o : Oracle) (roster : List Company)
    (now : String) : Nat → List Row → Store → Store × List Row
  | 0, ledger, st => (st, ledger)
  | n + 1, ledger, st =>
    let res := check_and_process_subscribed_events agent_id o roster now ledger st
    iteratePasses agent_id o roster now n res.2.1 res.1

/-! ### Ledger adapter — `src/google_sheets_client.py` -/

/-- `sheet.update_cell(i, col, v)` on one raw row, 0-indexed column:
gspread writes the cell whether or not the row currently extends that
far, so the row is padded with blanks as needed. -/
def setCell (row : List String) (col : Nat) (v : String) : List String :=
  (row ++ List.replicate (col + 1 - row.length) ("")).set col v

/-- `GoogleSheetsClient.update_event` (src/google_sheets_client.py lines
86-108) on the raw grid (`get_all_values`): linear scan on the first
column, update columns 2 and 5 of the first matching row, else raise
`ValueError`. -/
def update_event : List (List String) → String → String → String →
    Except String (List (List String))
  | [], event_id, _, _ =>
    .error ("Event " ++ event_id ++ " not found in spreadsheet")
  | row :: rest, event_id, event_type, details =>
    if !row.isEmpty && (row.headD ("") == event_id) then
      .ok (setCell (setCell row 1 event_type) 4 details :: rest)
    else
      (update_event rest event_id event_type details).map (fun rest' => row :: rest')

/-! ### Approval endpoint — `src/ui/app.py`, `approve_email` -/

/-- Python list indexing `l[i]` with a possibly negative `i`: the
resolved non-negative position, or `none` for an `IndexError`. -/
def pyIndex {α : Type} (l : List α) (i : Int) : Option Nat :=
  if 0 ≤ i then
    if i < (l.length : Int) then some i.toNat else none
  else
    if 0 ≤ (l.length : Int) + i then some ((l.length : Int) + i).toNat else none

/-- `case_file.emails[k]['sent'] = True`. -/
def setSentAt : Nat → List EmailRec → List EmailRec
  | _, [] => []
  | 0, e :: t => { e with sent := some true } :: t
  | n + 1, e :: t => e :: setSentAt n t

/-- The observable outcomes of the `approve_email` endpoint: the 404
response, the 400 `'Invalid email index'` response, success (with the
store after `case_file.save()`), or an exception escaping the handler
(Python `IndexError`, an HTTP 500). -/
inductive ApproveResult where
  | notFound
  | invalidIndex
  | approved (email_index : Int) (st : Store)
  | indexError

/-- `approve_email` (src/ui/app.py lines 290-308).  `email_index` is
`data.get('email_index')` from the request JSON. -/
def approve_email (st : Store) (now : String) (event_id : String)
    (email_index : Option Int) : ApproveResult :=
  match CaseFile.load st event_id now with
  | none => .notFound
  | some cf =>
    match email_index with
    | none => .invalidIndex
    | some i =>
      if (cf.emails.length : Int) ≤ i then .invalidIndex
      else
        match pyIndex cf.emails i with
        | none => .indexError
        | some k =>
          .approved i (CaseFile.save { cf with emails := setSentAt k cf.emails } st)

/-! ### Reference recursions used to state the pass characterization -/

/-- The case file `process_event_fast` builds for a ledger row; the
build does not consult the store, so any store yields the same object. -/
def caseFor (o : Oracle) (roster : List Company) (now : String) (r : Row) :
    CaseFile :=
  (process_event_fast o roster Store.empty now r.event_id r.event_type r.urgency
    r.location r.summary r.source_type r.source_id).1

/-- Saving the case files of a list of rows in order. -/
def applyStores (o : Oracle) (roster : List Company) (now : String) :
    Store → List Row → Store
  | st, [] => st
  | st, r :: rest => applyStores o roster now ((caseFor o roster now r).save st) rest

/-- Marking a list of event ids `'processing'` in order. -/
def applyStatus : List Row → List String → List Row
  | L, [] => L
  | L, e :: es => applyStatus (update_event_status L e ("processing")) es

/-- The projection of a ledger row that an orchestration pass can never
change: its key and its classification tag. -/
def rowKey (r : Row) : String × String := (r.event_id, r.event_type)

/-! ### Concrete fixtures used by witnesses and counterexamples -/

/-- A concrete service behaviour: classification calls answer with a
decorated category, vendor disambiguation is down, drafting succeeds. -/
def oracleA : Oracle :=
  { repairFromSummary := fun _ _ => .ok (" \"HVAC.\" "),
    repairFromDescription := fun _ => .ok (" \"Plumbing.\" "),
    selectCompany := fun _ _ _ => .error ("down"),
    email := fun t _ _ => .ok ("mail to " ++ t) }

/-- A concrete service behaviour where every call raises. -/
def oracleDown : Oracle :=
  { repairFromSummary := fun _ _ => .error ("down"),
    repairFromDescription := fun _ => .error ("down"),
    selectCompany := fun _ _ _ => .error ("down"),
    email := fun _ _ _ => .error ("down") }

/-- A `new` maintenance ledger row subscribed to the agent. -/
def rowMaintenance : Row :=
  { event_id := "evt_1", event_type := "repair_request", urgency := "routine",
    location := "Unit 3B", summary := "leaky pipe",
    subscribed_agents := "property_manager_agent_001", status := "new" }

/-- A `new` non-maintenance ledger row subscribed to the agent. -/
def rowInquiry : Row :=
  { event_id := "evt_2", event_type := "inquiry",
    summary := "question about the lease terms",
    subscribed_agents := "property_manager_agent_001", status := "new" }

/-- A `processed` maintenance ledger row subscribed to the agent. -/
def rowProcessed : Row :=
  { event_id := "evt_3", event_type := "repair_request",
    subscribed_agents := "property_manager_agent_001", status := "processed" }

/-- A persisted case record with three emails. -/
def caseThree : CaseFile :=
  { event_id := "evt_9",
    event_data := mkEventData ("evt_9") ("repair_request") ("routine") ("u")
      ("s") ("gmail") ("m"),
    actions := [],
    emails :=
      [{ timestamp := "t", recipient := "property_manager", content := "a" },
       { timestamp := "t", recipient := "maintenance_company", content := "b" },
       { timestamp := "t", recipient := "tenant", content := "c" }],
    created_at := "t", status := "open" }

/-- The store holding exactly `caseThree`. -/
def storeThree : Store := CaseFile.save caseThree Store.empty

/-! ## Helper lemmas -/

theorem Store.update_apply (st : Store) (k : String) (v : SavedCase) (e : String) :
    st.update k v e = if e = k then some v else st e := rfl

theorem CaseFile.load_update (st : Store) (k : String) (v : SavedCase)
    (e now : String) :
    CaseFile.load (st.update k v) e now =
      if e = k then some (CaseFile.ofSaved v now) else CaseFile.load st e now := by
  simp only [CaseFile.load, Store.update]
  split <;> rfl

theorem CaseFile.load_empty (e now : String) :
    CaseFile.load Store.empty e now = none := rfl

theorem CaseFile.ofSaved_to_dict (cf : CaseFile) (now : String) :
    CaseFile.ofSaved cf.to_dict now = cf := rfl

theorem CaseFile.load_save (cf : CaseFile) (st : Store) (now : String) :
    CaseFile.load (cf.save st) cf.event_id now = some cf := by
  rw [CaseFile.save, CaseFile.load_update, if_pos rfl, CaseFile.ofSaved_to_dict]

/-! ## Claim C8 -/

/-- Claim C8: for every Case Record, saving it and then loading by its
`event_id` yields a Case Record whose `actions` sequence and `emails`
sequence are element-wise identical to the originals, in the original
order (in fact the reloaded object is equal to the original). -/
theorem case_record_round_trip (cf : CaseFile) (st : Store) (now : String) :
    CaseFile.load (cf.save st) cf.event_id now = some cf ∧
    (CaseFile.load (cf.save st) cf.event_id now).map CaseFile.actions =
      some cf.actions ∧
    (CaseFile.load (cf.save st) cf.event_id now).map CaseFile.emails =
      some cf.emails := by
  refine ⟨CaseFile.load_save cf st now, ?_, ?_⟩ <;>
    rw [CaseFile.load_save cf st now] <;> rfl

/-! ## Claim C3 -/

/-- Claim C3: for every input content string, `extract_metadata` never
raises past its boundary and returns all four fields (the embedding is a
total function into `Metadata`, whose four fields are always present);
when the external text-completion call errors it returns the defaults
`urgency = "routine"`, `issue_type = "general"`, `summary =` first 100
characters of the content, with `location` derived from a `From:` header
line of the content when one is present and `"unknown"` otherwise. -/
theorem extract_metadata_error_contract (content err : String) :
    (extract_metadata content (.error err)).urgency = "routine" ∧
    (extract_metadata content (.error err)).issue_type = "general" ∧
    (extract_metadata content (.error err)).summary = pyTake 100 content ∧
    (extract_metadata content (.error err)).location = errLocation content ∧
    (hasFromHeader content = false →
      (extract_metadata content (.error err)).location = "unknown") := by
  refine ⟨rfl, rfl, rfl, rfl, fun h => ?_⟩
  show errLocation content = "unknown"
  rw [errLocation, h]
  rfl

/-- Witness for C3 at a concrete input without a `From:` header. -/
theorem extract_metadata_error_contract_witness :
    (extract_metadata ("no header here") (.error ("boom"))).location = "unknown" ∧
    (extract_metadata ("no header here") (.error ("boom"))).urgency = "routine" :=
  ⟨(extract_metadata_error_contract ("no header here") ("boom")).2.2.2.2 (by decide),
   (extract_metadata_error_contract ("no header here") ("boom")).1⟩

/-! ## Claim C4 -/

theorem extract_metadata_urgency (content : String) (resp : MetaResponse) :
    (extract_metadata content (.ok resp)).urgency =
      if pyLower (resp.urgency.getD ("routine")) = "urgent"
          || pyLower (resp.urgency.getD ("routine")) = "routine"
      then resp.urgency.getD ("routine") else "routine" := rfl

/-- Claim C4 counterexample: the normalization test lower-cases the
service value but, when the lower-cased value is in the allowed set,
keeps the original mixed-case string, so `"Urgent"` is returned as-is
and the result is neither `"urgent"` nor `"routine"`. -/
theorem urgency_normalization_cex :
    (extract_metadata ("x")
        (.ok { urgency := some ("Urgent"), location := some ("Unit 1"),
               issue_type := some ("leak"), summary := some ("s") })).urgency
      = "Urgent" ∧
    ("Urgent" : String) ≠ "urgent" ∧ ("Urgent" : String) ≠ "routine" :=
  ⟨by decide, by decide, by decide⟩

/-- Claim C4 amended: for every input and every service response, the
urgency returned by `extract_metadata` lower-cases to one of `"urgent"`
or `"routine"` (it is case-insensitively in the allowed set, though not
necessarily literally); and any service value whose lower-casing is not
in the set maps to `"routine"`. -/
theorem urgency_normalization (content : String)
    (svc : Except String MetaResponse) :
    (pyLower (extract_metadata content svc).urgency = "urgent" ∨
     pyLower (extract_metadata content svc).urgency = "routine") ∧
    (∀ resp u, svc = .ok resp → resp.urgency = some u →
      pyLower u ≠ "urgent" → pyLower u ≠ "routine" →
      (extract_metadata content svc).urgency = "routine") := by
  constructor
  · cases svc with
    | error e =>
      right
      show pyLower ("routine") = "routine"
      decide
    | ok resp =>
      rw [extract_metadata_urgency]
      by_cases h1 : pyLower (resp.urgency.getD ("routine")) = "urgent"
      · simp [h1]
      · by_cases h2 : pyLower (resp.urgency.getD ("routine")) = "routine"
        · simp [h1, h2]
        · simp [h1, h2]
          decide
  · intro resp u hsvc hu h1 h2
    subst hsvc
    rw [extract_metadata_urgency, hu]
    simp [h1, h2]

/-- Witness for C4 at a concrete service response outside the set. -/
theorem urgency_normalization_witness :
    (extract_metadata ("c") (.ok { urgency := some ("Perhaps") })).urgency =
      "routine" :=
  (urgency_normalization ("c") (.ok { urgency := some ("Perhaps") })).2
    { urgency := some ("Perhaps") } ("Perhaps") rfl rfl (by decide) (by decide)

/-! ## Claim C5 -/

/-- Claim C5: if the vendor roster is empty, vendor selection returns no
vendor, and `process_event_fast` still produces and persists a Case
Record containing exactly three email entries in the fixed order
property manager, maintenance company, tenant, where the
maintenance-company email content is the fixed placeholder string. -/
theorem empty_roster_pipeline (o : Oracle) (st : Store)
    (now eid ety urg loc summ sty sid : String) :
    (∀ rt ed, select_maintenance_company o [] rt ed = none) ∧
    (CaseFile.load (process_event_fast o [] st now eid ety urg loc summ sty sid).2
        eid now = some (process_event_fast o [] st now eid ety urg loc summ sty sid).1) ∧
    (process_event_fast o [] st now eid ety urg loc summ sty sid).1.emails.map
        EmailRec.recipient = ["property_manager", "maintenance_company", "tenant"] ∧
    ((process_event_fast o [] st now eid ety urg loc summ sty sid).1.emails.get? 1).map
        EmailRec.content = some ("No maintenance company selected.") := by
  refine ⟨fun rt ed => rfl, ?_, rfl, rfl⟩
  exact CaseFile.load_save
    (process_event_fast o [] st now eid ety urg loc summ sty sid).1 st now

/-! ## Claim C6 -/

theorem replDelAux_single (ch : Char) (fuel : Nat) (s : List Char)
    (h : s.length ≤ fuel) :
    replDelAux [ch] fuel s = s.filter (fun c => !(c == ch)) := by
  induction fuel generalizing s with
  | zero =>
    have hs : s = [] := List.length_eq_zero.mp (Nat.le_zero.mp h)
    subst hs; rfl
  | succ n ih =>
    cases s with
    | nil => rfl
    | cons c t =>
      have ht : t.length ≤ n := Nat.le_of_succ_le_succ h
      by_cases hc : ch = c
      · subst hc
        simp [replDelAux, List.isPrefixOf, ih t ht, List.filter_cons]
      · simp [replDelAux, List.isPrefixOf, hc, ih t ht, List.filter_cons,
          Ne.symm hc]

theorem pyReplaceDel_single (s : String) (ch : Char) :
    (pyReplaceDel s (⟨[ch]⟩ : String)).data = s.data.filter (fun c => !(c == ch)) :=
  replDelAux_single ch s.data.length s.data le_rfl

theorem mem_of_mem_pyStripL {c : Char} {l : List Char} (h : c ∈ pyStripL l) :
    c ∈ l := by
  rw [pyStripL, List.mem_reverse] at h
  have h1 : c ∈ (l.dropWhile pySpaceChar).reverse :=
    List.Sublist.mem h (List.dropWhile_sublist _)
  rw [List.mem_reverse] at h1
  exact List.Sublist.mem h1 (List.dropWhile_sublist _)

theorem repair_type_from_summary_chars (o : Oracle) (s l : String) :
    ∀ c ∈ (determine_repair_type_from_summary o s l).data, c ≠ '"' ∧ c ≠ '.' := by
  intro c hc
  rw [determine_repair_type_from_summary] at hc
  cases h : o.repairFromSummary s l with
  | error e =>
    rw [h] at hc
    have hc' : c ∈ ("general" : String).data := hc
    constructor <;> rintro rfl <;> exact absurd hc' (by decide)
  | ok r =>
    rw [h] at hc
    have hq : ("\"" : String) = (⟨['"']⟩ : String) := rfl
    have hp : ("." : String) = (⟨['.']⟩ : String) := rfl
    rw [hq, hp] at hc
    have h1 : c ∈ (pyReplaceDel (pyReplaceDel (pyLower (pyStrip r))
        (⟨['"']⟩ : String)) (⟨['.']⟩ : String)).data := mem_of_mem_pyStripL hc
    rw [pyReplaceDel_single] at h1
    have h2 := List.mem_filter.mp h1
    rw [pyReplaceDel_single] at h2
    have h3 := List.mem_filter.mp h2.1
    refine ⟨?_, ?_⟩
    · have := h3.2; simp at this; exact this
    · have := h2.2; simp at this; exact this

theorem process_event_fast_repair_type (o : Oracle) (roster : List Company)
    (st : Store) (now eid ety urg loc summ sty sid : String) :
    (process_event_fast o roster st now eid ety urg loc summ sty sid).1.event_data.repair_type
      = some (if summ ≠ "" ∧ 20 < summ.length
              then determine_repair_type_from_summary o summ loc
              else determine_repair_type o
                (mkEventData eid ety urg loc summ sty sid)) := rfl

/-- Claim C6 amended: repair-type determination takes the one-call fast
path on the metadata summary exactly when the summary is longer than 20
characters (non-emptiness is subsumed), and otherwise takes the
full-description fallback; the fast path lower-cases and strips quote
and period characters (its result never contains `'"'` or `'.'`) and
defaults to `"general"` on failure of the external call; the fallback
path only lower-cases and trims whitespace — it does not strip quotes or
periods — and defaults to `"other"` on failure. -/
theorem repair_type_paths (o : Oracle) (roster : List Company) (st : Store)
    (now eid ety urg loc summ sty sid d r err : String) :
    ((20 < summ.length →
      (process_event_fast o roster st now eid ety urg loc summ sty sid).1.event_data.repair_type
        = some (determine_repair_type_from_summary o summ loc)) ∧
     (¬ 20 < summ.length →
      (process_event_fast o roster st now eid ety urg loc summ sty sid).1.event_data.repair_type
        = some (determine_repair_type o (mkEventData eid ety urg loc summ sty sid)))) ∧
    (o.repairFromSummary summ loc = .error err →
      determine_repair_type_from_summary o summ loc = "general") ∧
    (o.repairFromDescription d = .error err →
      determine_repair_type_llm o d = "other") ∧
    (o.repairFromDescription summ = .ok r →
      determine_repair_type o (mkEventData eid ety urg loc summ sty sid)
        = pyLower (pyStrip r)) ∧
    (∀ c ∈ (determine_repair_type_from_summary o summ loc).data,
      c ≠ '"' ∧ c ≠ '.') := by
  refine ⟨⟨fun h => ?_, fun h => ?_⟩, fun h => ?_, fun h => ?_, fun h => ?_,
    repair_type_from_summary_chars o summ loc⟩
  · rw [process_event_fast_repair_type, if_pos]
    refine ⟨fun hs => ?_, h⟩
    rw [hs] at h
    exact absurd h (by decide)
  · rw [process_event_fast_repair_type, if_neg]
    rintro ⟨-, h2⟩
    exact h h2
  · rw [determine_repair_type_from_summary, h]
  · rw [determine_repair_type_llm, h]
  · rw [determine_repair_type]
    show determine_repair_type_llm o summ = pyLower (pyStrip r)
    rw [determine_repair_type_llm, h]

/-- Witness for C6: concrete long and short summaries, a failing call,
and a succeeding fallback call. -/
theorem repair_type_paths_witness :
    (process_event_fast oracleA [] Store.empty ("t") ("e") ("repair")
        ("routine") ("u") ("a long leaking pipe under the sink") ("gmail")
        ("m")).1.event_data.repair_type
      = some (determine_repair_type_from_summary oracleA
          ("a long leaking pipe under the sink") ("u")) ∧
    determine_repair_type_llm oracleDown ("d") = "other" ∧
    determine_repair_type oracleA
        (mkEventData ("e") ("repair") ("routine") ("u") ("leak") ("gmail") ("m"))
      = pyLower (pyStrip (" \"Plumbing.\" ")) :=
  ⟨((repair_type_paths oracleA [] Store.empty ("t") ("e") ("repair") ("routine")
      ("u") ("a long leaking pipe under the sink") ("gmail") ("m") ("d") ("r")
      ("err")).1).1 (by decide),
   (repair_type_paths oracleDown [] Store.empty ("t") ("e") ("repair")
      ("routine") ("u") ("s") ("gmail") ("m") ("d") ("r") ("down")).2.2.1 rfl,
   (repair_type_paths oracleA [] Store.empty ("t") ("e") ("repair") ("routine")
      ("u") ("leak") ("gmail") ("m") ("d") (" \"Plumbing.\" ")
      ("err")).2.2.2.1 rfl⟩

/-- Claim C6 counterexample: with a short summary (`"leak"`, length 4)
the fallback path runs and, on the service answering `" \"Plumbing.\" "`,
the recorded repair type keeps the quote and period characters — the
claim's assertion that both paths strip quotes and periods fails. -/
theorem repair_type_paths_cex :
    (process_event_fast oracleA [] Store.empty ("t") ("e1") ("repair_request")
        ("routine") ("u") ("leak") ("gmail") ("m")).1.event_data.repair_type
      = some ("\"plumbing.\"") ∧
    ('"' ∈ ("\"plumbing.\"" : String).data) ∧
    ('.' ∈ ("\"plumbing.\"" : String).data) := by
  refine ⟨by decide, by decide, by decide⟩

/-! ## Claim C7 -/

/-- Claim C7 counterexample: the ledger-status update the orchestration
loop actually performs (`_update_event_status`) completes normally and
changes nothing when the `event_id` is absent — the not-found failure is
silently swallowed there, not surfaced. -/
theorem ledger_update_not_found_cex :
    update_event_status [rowMaintenance] ("evt_missing") ("processing")
      = [rowMaintenance] ∧
    rowMaintenance.event_id ≠ "evt_missing" := by
  refine ⟨by decide, by decide⟩

/-- Claim C7 amended: the ledger adapter's `update_event` locates the
row by linear scan on the first column and fails with an explicit
"not found" error when the `event_id` is absent, and it never inserts a
row (no upsert); the agent-side status update `_update_event_status`,
however, silently does nothing when the `event_id` is absent. -/
theorem ledger_update_not_found (sheet : List (List String))
    (eid ety det : String) :
    ((∀ row ∈ sheet, row = [] ∨ row.headD ("") ≠ eid) →
      update_event sheet eid ety det =
        .error ("Event " ++ eid ++ " not found in spreadsheet")) ∧
    (∀ sheet', update_event sheet eid ety det = .ok sheet' →
      sheet'.length = sheet.length) ∧
    (∀ ledger : List Row, (∀ r ∈ ledger, r.event_id ≠ eid) →
      update_event_status ledger eid ("processing") = ledger) := by
  refine ⟨?_, ?_, ?_⟩
  · intro h
    induction sheet with
    | nil => rfl
    | cons row rest ih =>
      have hr := h row (List.mem_cons_self _ _)
      have hguard : (!row.isEmpty && (row.headD ("") == eid)) = false := by
        rcases hr with hr | hr
        · subst hr; rfl
        · rw [beq_eq_false_iff_ne.mpr hr, Bool.and_false]
      rw [update_event, if_neg (by rw [hguard]; exact Bool.false_ne_true),
        ih (fun x hx => h x (List.mem_cons_of_mem _ hx))]
      rfl
  · intro sheet' hok
    induction sheet generalizing sheet' with
    | nil => cases hok
    | cons row rest ih =>
      rw [update_event] at hok
      by_cases hguard : (!row.isEmpty && (row.headD ("") == eid)) = true
      · rw [if_pos hguard] at hok
        cases hok
        rfl
      · rw [if_neg hguard] at hok
        cases hrest : update_event rest eid ety det with
        | error e => rw [hrest] at hok; cases hok
        | ok rest' =>
          rw [hrest] at hok
          cases hok
          simp [ih rest' hrest]
  · intro ledger h
    induction ledger with
    | nil => rfl
    | cons r rest ih =>
      rw [update_event_status, if_neg (h r (List.mem_cons_self _ _)),
        ih (fun x hx => h x (List.mem_cons_of_mem _ hx))]

/-- Witness for C7 at a concrete one-row sheet without the key. -/
theorem ledger_update_not_found_witness :
    update_event [["evt_1", "x"]] ("evt_9") ("ty") ("d")
      = .error ("Event " ++ "evt_9" ++ " not found in spreadsheet") ∧
    update_event_status [rowMaintenance] ("evt_9") ("processing")
      = [rowMaintenance] :=
  ⟨(ledger_update_not_found [["evt_1", "x"]] ("evt_9") ("ty") ("d")).1 (by decide),
   (ledger_update_not_found [] ("evt_9") ("ty") ("d")).2.2 [rowMaintenance]
     (by decide)⟩

/-! ## Claim C10 -/

/-- Claim C10 counterexample: with three emails in the case, the request
with `email_index = -4` is neither missing nor `≥ 3`, yet the handler
fails — the negative index escapes the validation and raises an uncaught
`IndexError` — so the rejection condition is not exactly "missing or
`≥ len(emails)`". -/
theorem approve_email_cex :
    approve_email storeThree ("t") ("evt_9") (some (-4)) = .indexError ∧
    ((-4 : Int) < (3 : Int)) ∧ caseThree.emails.length = 3 := by
  refine ⟨rfl, by decide, by decide⟩

/-- Claim C10 amended: the endpoint answers the 400 "Invalid email
index" error exactly when `email_index` is missing or `≥` the number of
emails; a negative `email_index` whose magnitude is at most the number
of emails is accepted, sets the `sent` flag on the email counted from
the end of the list, and persists the whole case record; a negative
index of larger magnitude raises an uncaught `IndexError` instead of
being rejected by the validation. -/
theorem approve_email_contract (st : Store) (now eid : String) (cf : CaseFile)
    (i : Int) (hload : CaseFile.load st eid now = some cf) :
    (approve_email st now eid none = .invalidIndex) ∧
    ((cf.emails.length : Int) ≤ i →
      approve_email st now eid (some i) = .invalidIndex) ∧
    (0 ≤ i → i < (cf.emails.length : Int) →
      approve_email st now eid (some i) =
        .approved i (CaseFile.save
          { cf with emails := setSentAt i.toNat cf.emails } st)) ∧
    (-(cf.emails.length : Int) ≤ i → i < 0 →
      approve_email st now eid (some i) =
        .approved i (CaseFile.save
          { cf with emails :=
              setSentAt ((cf.emails.length : Int) + i).toNat cf.emails } st)) ∧
    (i < -(cf.emails.length : Int) →
      approve_email st now eid (some i) = .indexError) := by
  refine ⟨?_, fun h => ?_, fun h0 h1 => ?_, fun hneg h0 => ?_, fun h => ?_⟩
  · rw [approve_email, hload]
  · rw [approve_email, hload]
    simp only [if_pos h]
  · rw [approve_email, hload]
    simp only [if_neg (not_le.mpr h1), pyIndex, if_pos h0, if_pos h1]
  · rw [approve_email, hload]
    simp only [if_neg (by omega : ¬ (cf.emails.length : Int) ≤ i), pyIndex,
      if_neg (by omega : ¬ (0 : Int) ≤ i),
      if_pos (by omega : (0 : Int) ≤ (cf.emails.length : Int) + i)]
  · rw [approve_email, hload]
    simp only [if_neg (by omega : ¬ (cf.emails.length : Int) ≤ i), pyIndex,
      if_neg (by omega : ¬ (0 : Int) ≤ i),
      if_neg (by omega : ¬ (0 : Int) ≤ (cf.emails.length : Int) + i)]

/-- Witness for C10: accepting `-1` on a three-email case and rejecting
a missing index. -/
theorem approve_email_contract_witness :
    approve_email storeThree ("t") ("evt_9") (some (-1)) =
      .approved (-1) (CaseFile.save { caseThree with emails := setSentAt ((caseThree.emails.length : Int) + (-1)).toNat caseThree.emails } storeThree) ∧
    approve_email storeThree ("t") ("evt_9") none = .invalidIndex :=
  ⟨(approve_email_contract storeThree ("t") ("evt_9") caseThree (-1)
      (by decide)).2.2.2.1 (by decide) (by decide),
   (approve_email_contract storeThree ("t") ("evt_9") caseThree 0
      (by decide)).1⟩

/-! ## Orchestration-pass lemmas -/

theorem caseFor_event_id (o : Oracle) (roster : List Company) (now : String)
    (r : Row) : (caseFor o roster now r).event_id = r.event_id := rfl

theorem process_event_fast_eta (o : Oracle) (roster : List Company) (st : Store)
    (now : String) (r : Row) :
    process_event_fast o roster st now r.event_id r.event_type r.urgency
        r.location r.summary r.source_type r.source_id
      = (caseFor o roster now r, (caseFor o roster now r).save st) := rfl

theorem eligible_false_of_case (a : String) (st : Store) (now : String) (r : Row)
    (h : (CaseFile.load st r.event_id now).isSome) :
    eligible a st now r = false := by
  simp [eligible, h]

theorem eligible_update_ne (a : String) (st : Store) (now : String) (r : Row)
    (k : String) (v : SavedCase) (h : r.event_id ≠ k) :
    eligible a (st.update k v) now r = eligible a st now r := by
  simp only [eligible, CaseFile.load_update, if_neg h]

theorem eligible_save_ne (a : String) (st : Store) (now : String) (r : Row)
    (cf : CaseFile) (h : r.event_id ≠ cf.event_id) :
    eligible a (cf.save st) now r = eligible a st now r := by
  rw [CaseFile.save]
  exact eligible_update_ne a st now r cf.event_id cf.to_dict h

theorem passAux_spec (a : String) (o : Oracle) (roster : List Company)
    (now : String) (rows : List Row) :
    ∀ (st : Store) (L : List Row) (cs : List CaseFile),
    (rows.map Row.event_id).Nodup →
    passAux a o roster now rows (st, L, cs) =
      (applyStores o roster now st (rows.filter (eligible a st now)),
       applyStatus L ((rows.filter (eligible a st now)).map Row.event_id),
       cs ++ (rows.filter (eligible a st now)).map (caseFor o roster now)) := by
  induction rows with
  | nil =>
    intro st L cs _
    simp [passAux, applyStores, applyStatus]
  | cons r rest ih =>
    intro st L cs h
    rw [List.map_cons, List.nodup_cons] at h
    obtain ⟨hr, hrest⟩ := h
    by_cases he : eligible a st now r = true
    · rw [passAux, if_pos he, process_event_fast_eta,
        ih _ _ _ hrest]
      have hfil : rest.filter (eligible a ((caseFor o roster now r).save st) now)
          = rest.filter (eligible a st now) := by
        apply List.filter_congr
        intro x hx
        apply eligible_save_ne
        rw [caseFor_event_id]
        intro hxx
        exact hr (hxx ▸ List.mem_map_of_mem Row.event_id hx)
      rw [hfil, List.filter_cons_of_pos he, List.append_assoc]
      rfl
    · rw [passAux, if_neg he, ih _ _ _ hrest,
        List.filter_cons_of_neg he]

theorem update_event_status_map (L : List Row) (e s : String)
    (h : (L.map Row.event_id).Nodup) :
    update_event_status L e s =
      L.map (fun r => if r.event_id = e then setRowStatus s r else r) := by
  induction L with
  | nil => rfl
  | cons r rest ih =>
    rw [List.map_cons, List.nodup_cons] at h
    obtain ⟨hr, hrest⟩ := h
    by_cases hre : r.event_id = e
    · rw [update_event_status, if_pos hre, List.map_cons, if_pos hre]
      congr 1
      have hid : ∀ x ∈ rest, (if x.event_id = e then setRowStatus s x else x) = x := by
        intro x hx
        apply if_neg
        intro hxe
        exact hr (by rw [← hre] at hxe; exact hxe ▸ List.mem_map_of_mem Row.event_id hx)
      rw [List.map_congr_left hid, List.map_id']
    · rw [update_event_status, if_neg hre, List.map_cons, if_neg hre, ih hrest]

theorem update_event_status_ids (L : List Row) (e s : String) :
    (update_event_status L e s).map Row.event_id = L.map Row.event_id := by
  induction L with
  | nil => rfl
  | cons r rest ih =>
    rw [update_event_status]
    by_cases hre : r.event_id = e
    · rw [if_pos hre]; rfl
    · rw [if_neg hre, List.map_cons, List.map_cons, ih]

theorem applyStatus_map (es : List String) (L : List Row)
    (h : (L.map Row.event_id).Nodup) :
    applyStatus L es =
      L.map (fun r => if r.event_id ∈ es then setRowStatus ("processing") r else r) := by
  induction es generalizing L with
  | nil =>
    rw [applyStatus]
    have hid : ∀ x ∈ L,
        x = (if x.event_id ∈ ([] : List String) then setRowStatus ("processing") x else x) := by
      intro x _
      rw [if_neg (List.not_mem_nil _)]
    rw [← List.map_congr_left hid, List.map_id']
  | cons e es ih =>
    rw [applyStatus, ih _ (by rw [update_event_status_ids]; exact h),
      update_event_status_map L e _ h, List.map_map]
    apply List.map_congr_left
    intro x _
    by_cases hxe : x.event_id = e
    · simp [Function.comp, hxe, setRowStatus]
    · by_cases hxs : x.event_id ∈ es <;>
        simp [Function.comp, hxe, hxs, setRowStatus]

theorem eligible_spec (a : String) (st : Store) (now : String) (r : Row)
    (h : eligible a st now r = true) :
    r.event_id ≠ "" ∧ CaseFile.load st r.event_id now = none ∧
    r.status = "new" ∧ pyContains r.subscribed_agents a = true ∧
    is_maintenance_related r.event_type = true := by
  simp only [eligible, Bool.and_eq_true] at h
  obtain ⟨⟨⟨⟨h1, h2⟩, h3⟩, h4⟩, h5⟩ := h
  refine ⟨bne_iff_ne.mp h1, ?_, beq_iff_eq.mp h3, h4, h5⟩
  cases hl : CaseFile.load st r.event_id now with
  | none => rfl
  | some c => rw [hl] at h2; simp at h2

/-! ## Claim C2 -/

/-- Claim C2 counterexample: a row with `status = "new"`, the agent in
`subscribed_agents`, and no existing Case Record, but a non-maintenance
`event_type` (`"inquiry"`), is not dispatched and is not marked
`processing` — contradicting the claim that every such row is
dispatched and marked. -/
theorem orchestration_pass_enumeration_cex :
    (check_and_process_subscribed_events PROPERTY_MANAGEMENT_AGENT_ID oracleA []
        ("t") [rowInquiry] Store.empty).2.2 = [] ∧
    (check_and_process_subscribed_events PROPERTY_MANAGEMENT_AGENT_ID oracleA []
        ("t") [rowInquiry] Store.empty).2.1 = [rowInquiry] ∧
    rowInquiry.status = "new" ∧
    pyContains rowInquiry.subscribed_agents PROPERTY_MANAGEMENT_AGENT_ID = true ∧
    CaseFile.load Store.empty rowInquiry.event_id ("t") = none := by
  exact ⟨rfl, by decide, rfl, by decide, rfl⟩

/-- Claim C2 amended: on each invocation (over a ledger whose
`event_id`s are pairwise distinct) the pass creates one Case Record for
exactly the rows with a non-empty `event_id`, no existing Case Record,
`status = "new"`, the agent id occurring in `subscribed_agents`, and a
maintenance-related `event_type`; each such row — and no other — is
marked `processing`; every created case stems from a row with
`status = "new"`, so a row with `status = "processed"` is never claimed
regardless of subscription match. -/
theorem orchestration_pass_enumeration (a : String) (o : Oracle)
    (roster : List Company) (now : String) (ledger : List Row) (st : Store)
    (hnd : (ledger.map Row.event_id).Nodup) :
    (check_and_process_subscribed_events a o roster now ledger st).2.2.map
        CaseFile.event_id
      = (ledger.filter (eligible a st now)).map Row.event_id ∧
    (check_and_process_subscribed_events a o roster now ledger st).2.1
      = ledger.map (fun r =>
          if eligible a st now r then setRowStatus ("processing") r else r) ∧
    (∀ cf ∈ (check_and_process_subscribed_events a o roster now ledger st).2.2,
      ∃ r ∈ ledger, cf.event_id = r.event_id ∧ r.status = "new" ∧
        CaseFile.load st r.event_id now = none ∧
        pyContains r.subscribed_agents a = true ∧
        is_maintenance_related r.event_type = true) ∧
    (∀ r ∈ ledger, r.status = "processed" →
      ∀ cf ∈ (check_and_process_subscribed_events a o roster now ledger st).2.2,
        cf.event_id ≠ r.event_id) := by
  have hps := passAux_spec a o roster now ledger st ledger [] hnd
  have hinj := List.inj_on_of_nodup_map hnd
  refine ⟨?_, ?_, ?_, ?_⟩
  · rw [check_and_process_subscribed_events, hps]
    dsimp only
    rw [List.nil_append, List.map_map]
    exact List.map_congr_left (fun x _ => rfl)
  · rw [check_and_process_subscribed_events, hps]
    dsimp only
    rw [applyStatus_map _ _ hnd]
    apply List.map_congr_left
    intro r hr
    by_cases he : eligible a st now r = true
    · rw [if_pos he,
        if_pos (List.mem_map_of_mem Row.event_id (List.mem_filter.mpr ⟨hr, he⟩))]
    · have hnm : r.event_id ∉ (ledger.filter (eligible a st now)).map Row.event_id := by
        intro hmem
        obtain ⟨r', hr'm, heq⟩ := List.mem_map.mp hmem
        obtain ⟨hr'l, hr'e⟩ := List.mem_filter.mp hr'm
        exact he (hinj hr'l hr heq ▸ hr'e)
      rw [if_neg he, if_neg hnm]
  · intro cf hcf
    rw [check_and_process_subscribed_events, hps] at hcf
    dsimp only at hcf
    rw [List.nil_append] at hcf
    obtain ⟨r', hr'm, rfl⟩ := List.mem_map.mp hcf
    obtain ⟨hr'l, hr'e⟩ := List.mem_filter.mp hr'm
    obtain ⟨h1, h2, h3, h4, h5⟩ := eligible_spec a st now r' hr'e
    exact ⟨r', hr'l, caseFor_event_id o roster now r', h3, h2, h4, h5⟩
  · intro r hrl hproc cf hcf
    rw [check_and_process_subscribed_events, hps] at hcf
    dsimp only at hcf
    rw [List.nil_append] at hcf
    obtain ⟨r', hr'm, rfl⟩ := List.mem_map.mp hcf
    obtain ⟨hr'l, hr'e⟩ := List.mem_filter.mp hr'm
    rw [caseFor_event_id]
    intro heq
    obtain ⟨-, -, h3, -, -⟩ := eligible_spec a st now r' hr'e
    rw [hinj hr'l hrl heq] at h3
    rw [h3] at hproc
    exact absurd hproc (by decide)

/-- Witness for C2 on a concrete three-row ledger. -/
theorem orchestration_pass_enumeration_witness :
    (check_and_process_subscribed_events PROPERTY_MANAGEMENT_AGENT_ID oracleA []
        ("t") [rowMaintenance, rowInquiry, rowProcessed] Store.empty).2.2.map
        CaseFile.event_id
      = ([rowMaintenance, rowInquiry, rowProcessed].filter
          (eligible PROPERTY_MANAGEMENT_AGENT_ID Store.empty ("t"))).map
          Row.event_id ∧
    (check_and_process_subscribed_events PROPERTY_MANAGEMENT_AGENT_ID oracleA []
        ("t") [rowMaintenance, rowInquiry, rowProcessed] Store.empty).2.1
      = [rowMaintenance, rowInquiry, rowProcessed].map (fun r =>
          if eligible PROPERTY_MANAGEMENT_AGENT_ID Store.empty ("t") r
          then setRowStatus ("processing") r else r) :=
  ⟨(orchestration_pass_enumeration PROPERTY_MANAGEMENT_AGENT_ID oracleA [] ("t")
      [rowMaintenance, rowInquiry, rowProcessed] Store.empty (by decide)).1,
   (orchestration_pass_enumeration PROPERTY_MANAGEMENT_AGENT_ID oracleA [] ("t")
      [rowMaintenance, rowInquiry, rowProcessed] Store.empty (by decide)).2.1⟩

/-! ## Claim C1 -/

/-- Claim C1 counterexample: a ledger with one row with `status = "new"`
whose `subscribed_agents` contains the agent id, but whose `event_type`
is not maintenance-related: two passes create no Case Record at all for
its `event_id`, not exactly one. -/
theorem orchestration_idempotent_cex :
    (iteratePasses PROPERTY_MANAGEMENT_AGENT_ID oracleA [] ("t") 2 [rowInquiry]
        Store.empty).1 ("evt_2") = none ∧
    rowInquiry.status = "new" ∧
    pyContains rowInquiry.subscribed_agents PROPERTY_MANAGEMENT_AGENT_ID = true := by
  exact ⟨by decide, rfl, by decide⟩

/-- Claim C1 amended: two passes on a ledger with one `new` row whose
`subscribed_agents` contains the agent id, whose `event_id` is non-empty
and whose `event_type` is maintenance-related, starting from an empty
case-file store, persist exactly one Case Record (for that `event_id`
and no other), and the second pass skips the row — it returns the store
and ledger unchanged and creates nothing — because a Case Record
already exists. -/
theorem orchestration_idempotent (r : Row) (o : Oracle) (roster : List Company)
    (now : String) (hid : r.event_id ≠ "") (hst : r.status = "new")
    (hsub : pyContains r.subscribed_agents PROPERTY_MANAGEMENT_AGENT_ID = true)
    (hm : is_maintenance_related r.event_type = true) :
    ((check_and_process_subscribed_events PROPERTY_MANAGEMENT_AGENT_ID o roster
        now [r] Store.empty).1 r.event_id).isSome = true ∧
    (∀ e, e ≠ r.event_id →
      (check_and_process_subscribed_events PROPERTY_MANAGEMENT_AGENT_ID o roster
        now [r] Store.empty).1 e = none) ∧
    (check_and_process_subscribed_events PROPERTY_MANAGEMENT_AGENT_ID o roster
        now [r] Store.empty).2.2.length = 1 ∧
    check_and_process_subscribed_events PROPERTY_MANAGEMENT_AGENT_ID o roster now
        (check_and_process_subscribed_events PROPERTY_MANAGEMENT_AGENT_ID o
          roster now [r] Store.empty).2.1
        (check_and_process_subscribed_events PROPERTY_MANAGEMENT_AGENT_ID o
          roster now [r] Store.empty).1
      = ((check_and_process_subscribed_events PROPERTY_MANAGEMENT_AGENT_ID o
            roster now [r] Store.empty).1,
         (check_and_process_subscribed_events PROPERTY_MANAGEMENT_AGENT_ID o
            roster now [r] Store.empty).2.1, []) := by
  have he : eligible PROPERTY_MANAGEMENT_AGENT_ID Store.empty now r = true := by
    simp [eligible, CaseFile.load_empty, bne_iff_ne, hid, hst, hsub, hm]
  have h1 : check_and_process_subscribed_events PROPERTY_MANAGEMENT_AGENT_ID o
      roster now [r] Store.empty
      = ((caseFor o roster now r).save Store.empty,
         [setRowStatus ("processing") r], [caseFor o roster now r]) := by
    rw [check_and_process_subscribed_events, passAux, if_pos he,
      process_event_fast_eta, passAux]
    rw [update_event_status, if_pos rfl]
    rw [List.nil_append]
  have hload1 : CaseFile.load ((caseFor o roster now r).save Store.empty)
      r.event_id now = some (caseFor o roster now r) := by
    have h := CaseFile.load_save (caseFor o roster now r) Store.empty now
    rw [caseFor_event_id] at h
    exact h
  refine ⟨?_, ?_, ?_, ?_⟩
  · rw [h1]
    dsimp only [CaseFile.save, Store.update]
    rw [caseFor_event_id, if_pos rfl]
    rfl
  · intro e hne
    rw [h1]
    dsimp only [CaseFile.save, Store.update]
    rw [caseFor_event_id, if_neg hne]
    rfl
  · rw [h1]
    rfl
  · rw [h1]
    dsimp only
    have hel2 : eligible PROPERTY_MANAGEMENT_AGENT_ID
        ((caseFor o roster now r).save Store.empty) now
        (setRowStatus ("processing") r) = false := by
      apply eligible_false_of_case
      show (CaseFile.load ((caseFor o roster now r).save Store.empty)
        (setRowStatus ("processing") r).event_id now).isSome = true
      rw [show (setRowStatus ("processing") r).event_id = r.event_id from rfl,
        hload1]
      rfl
    rw [check_and_process_subscribed_events, passAux,
      if_neg (by rw [hel2]; exact Bool.false_ne_true), passAux]

/-- Witness for C1 on a concrete maintenance row. -/
theorem orchestration_idempotent_witness :
    ((check_and_process_subscribed_events PROPERTY_MANAGEMENT_AGENT_ID oracleA []
        ("t") [rowMaintenance] Store.empty).1 rowMaintenance.event_id).isSome
      = true ∧
    (check_and_process_subscribed_events PROPERTY_MANAGEMENT_AGENT_ID oracleA []
        ("t") [rowMaintenance] Store.empty).2.2.length = 1 ∧
    check_and_process_subscribed_events PROPERTY_MANAGEMENT_AGENT_ID oracleA []
        ("t")
        (check_and_process_subscribed_events PROPERTY_MANAGEMENT_AGENT_ID
          oracleA [] ("t") [rowMaintenance] Store.empty).2.1
        (check_and_process_subscribed_events PROPERTY_MANAGEMENT_AGENT_ID
          oracleA [] ("t") [rowMaintenance] Store.empty).1
      = ((check_and_process_subscribed_events PROPERTY_MANAGEMENT_AGENT_ID
            oracleA [] ("t") [rowMaintenance] Store.empty).1,
         (check_and_process_subscribed_events PROPERTY_MANAGEMENT_AGENT_ID
            oracleA [] ("t") [rowMaintenance] Store.empty).2.1, []) :=
  ⟨(orchestration_idempotent rowMaintenance oracleA [] ("t") (by decide)
      (by decide) (by decide) (by decide)).1,
   (orchestration_idempotent rowMaintenance oracleA [] ("t") (by decide)
      (by decide) (by decide) (by decide)).2.2.1,
   (orchestration_idempotent rowMaintenance oracleA [] ("t") (by decide)
      (by decide) (by decide) (by decide)).2.2.2⟩

/-! ## Claim C9 -/

theorem update_event_status_get?_ne (s : String) :
    ∀ (L : List Row) (e : String) (i : Nat) (r : Row),
    L.get? i = some r → r.event_id ≠ e →
    (update_event_status L e s).get? i = some r := by
  intro L
  induction L with
  | nil => intro e i r h _; simp at h
  | cons r0 rest ih =>
    intro e i r h hne
    rw [update_event_status]
    by_cases h0 : r0.event_id = e
    · rw [if_pos h0]
      cases i with
      | zero =>
        simp only [List.get?] at h
        cases h
        exact absurd h0 hne
      | succ n => exact h
    · rw [if_neg h0]
      cases i with
      | zero => exact h
      | succ n => exact ih e n r h hne

theorem update_event_status_rowKey (e s : String) :
    ∀ (L : List Row) (i : Nat),
    ((update_event_status L e s).get? i).map rowKey = (L.get? i).map rowKey := by
  intro L
  induction L with
  | nil => intro i; rfl
  | cons r0 rest ih =>
    intro i
    rw [update_event_status]
    by_cases h0 : r0.event_id = e
    · rw [if_pos h0]
      cases i with
      | zero => rfl
      | succ n => rfl
    · rw [if_neg h0]
      cases i with
      | zero => rfl
      | succ n => exact ih n

theorem passAux_avoid (a : String) (o : Oracle) (roster : List Company)
    (now e : String) :
    ∀ (rows : List Row) (st : Store) (L : List Row) (cs : List CaseFile),
    (∀ r ∈ rows, r.event_id = e → is_maintenance_related r.event_type = false) →
    ((passAux a o roster now rows (st, L, cs)).1 e = st e ∧
     (∀ i, (((passAux a o roster now rows (st, L, cs)).2.1).get? i).map rowKey
        = (L.get? i).map rowKey) ∧
     (∀ i r, L.get? i = some r → r.event_id = e →
        ((passAux a o roster now rows (st, L, cs)).2.1).get? i = some r)) := by
  intro rows
  induction rows with
  | nil => exact fun st L cs _ => ⟨rfl, fun i => rfl, fun i r h _ => h⟩
  | cons r rest ih =>
    intro st L cs h
    by_cases he : eligible a st now r = true
    · have hrne : r.event_id ≠ e := by
        intro hre
        have hmt := (eligible_spec a st now r he).2.2.2.2
        rw [h r (List.mem_cons_self _ _) hre] at hmt
        exact Bool.false_ne_true hmt
      rw [passAux, if_pos he, process_event_fast_eta]
      obtain ⟨ih1, ih2, ih3⟩ := ih ((caseFor o roster now r).save st)
        (update_event_status L r.event_id ("processing")) (cs ++ [caseFor o roster now r])
        (fun x hx => h x (List.mem_cons_of_mem _ hx))
      refine ⟨?_, ?_, ?_⟩
      · rw [ih1]
        dsimp only [CaseFile.save, Store.update]
        rw [caseFor_event_id, if_neg (Ne.symm hrne)]
      · intro i
        rw [ih2, update_event_status_rowKey]
      · intro i r' hL hr'e
        exact ih3 i r'
          (update_event_status_get?_ne ("processing") L r.event_id i r' hL
            (by rw [hr'e]; exact Ne.symm hrne)) hr'e
    · rw [passAux, if_neg he]
      exact ih st L cs (fun x hx => h x (List.mem_cons_of_mem _ hx))

/-- Claim C9: for every ledger row whose `event_type` is not,
case-insensitively, one of the eight maintenance types, the
orchestration pass creates no Case Record for its `event_id` and leaves
the row (including its status) unchanged at its position, over any
number of successive passes — so a `new` row stays `new` and is
re-examined and re-skipped every time. -/
theorem non_maintenance_rows_untouched (o : Oracle) (roster : List Company)
    (now e : String) (ledger : List Row) (st : Store) (n : Nat)
    (hm : ∀ r ∈ ledger, r.event_id = e →
      is_maintenance_related r.event_type = false)
    (hst : st e = none) :
    (iteratePasses PROPERTY_MANAGEMENT_AGENT_ID o roster now n ledger st).1 e
      = none ∧
    (∀ i r, ledger.get? i = some r → r.event_id = e →
      ((iteratePasses PROPERTY_MANAGEMENT_AGENT_ID o roster now n ledger st).2).get? i
        = some r) := by
  induction n generalizing ledger st with
  | zero => exact ⟨hst, fun i r h _ => h⟩
  | succ k ih =>
    obtain ⟨p1, p2, p3⟩ := passAux_avoid PROPERTY_MANAGEMENT_AGENT_ID o roster
      now e ledger st ledger [] hm
    rw [iteratePasses]
    rw [check_and_process_subscribed_events]
    have hm1 : ∀ r' ∈ (passAux PROPERTY_MANAGEMENT_AGENT_ID o roster now ledger
        (st, ledger, [])).2.1, r'.event_id = e →
        is_maintenance_related r'.event_type = false := by
      intro r' hr' hre
      obtain ⟨i, hi⟩ := List.mem_iff_get?.mp hr'
      have hk := p2 i
      rw [hi] at hk
      cases hL : ledger.get? i with
      | none => rw [hL] at hk; simp at hk
      | some r0 =>
        rw [hL] at hk
        simp only [Option.map_some', Option.some_inj, rowKey, Prod.mk.injEq] at hk
        rw [hk.2]
        exact hm r0 (List.get?_mem hL) (by rw [← hk.1]; exact hre)
    have hst1 : (passAux PROPERTY_MANAGEMENT_AGENT_ID o roster now ledger
        (st, ledger, [])).1 e = none := by rw [p1]; exact hst
    obtain ⟨q1, q2⟩ := ih
      (passAux PROPERTY_MANAGEMENT_AGENT_ID o roster now ledger (st, ledger, [])).2.1
      (passAux PROPERTY_MANAGEMENT_AGENT_ID o roster now ledger (st, ledger, [])).1
      hm1 hst1
    refine ⟨q1, ?_⟩
    intro i r hL hre
    exact q2 i r (p3 i r hL hre) hre

/-- Witness for C9: two passes over a one-row non-maintenance ledger. -/
theorem non_maintenance_rows_untouched_witness :
    (iteratePasses PROPERTY_MANAGEMENT_AGENT_ID oracleA [] ("t") 2 [rowInquiry]
        Store.empty).1 ("evt_2") = none ∧
    ((iteratePasses PROPERTY_MANAGEMENT_AGENT_ID oracleA [] ("t") 2 [rowInquiry]
        Store.empty).2).get? 0 = some rowInquiry :=
  ⟨(non_maintenance_rows_untouched oracleA [] ("t") ("evt_2") [rowInquiry]
      Store.empty 2 (by decide) rfl).1,
   (non_maintenance_rows_untouched oracleA [] ("t") ("evt_2") [rowInquiry]
      Store.empty 2 (by decide) rfl).2 0 rowInquiry rfl rfl⟩

end PackAI
